import Mathlib

/-!
Verification of the JAM job-scraper wrapper
(`backend/src/python/job_scraper.py`).

The script parses CLI flags, calls the external `scrape_jobs` collaborator,
normalizes each row of the returned tabular result into a JSON-ready record,
and writes the collection to a file, falling back to an empty JSON array on
zero results or any exception.

The embedding below models:
  * Python/pandas cell values (`Value`), including the NaN missing marker
    and `None`;
  * `pandas.Series.get`, `pd.notna`, and the Python coercions `str`, `bool`,
    `float` as used by the script;
  * the per-row normalization (`transformRow`), mirroring the dict literal
    in `main` field by field;
  * a JSON value type and a renderer mirroring `json.dump` (with and
    without `indent=2`);
  * the top-level control flow of `main` after argument parsing
    (`runScrapePhase` / `programRun`), including the exception handler that
    writes `[]` and exits with status 1.
-/

/-- A cell value as it appears in a pandas row.  `vNaN` is the NaN-equivalent
missing marker, `vNone` is Python `None` (what `Series.get` returns for an
absent key when no default is given). -/
inductive Value where
  | vNaN
  | vNone
  | vStr (s : String)
  | vNum (q : ℚ)
  | vBool (b : Bool)
deriving DecidableEq, Repr

/-- A tabular row: an association list from column name to cell value.
A column absent from the list models a column absent from the frame. -/
def Row : Type := List (String × Value)

/-- `row.get(key, default)` on a pandas Series: the stored value when the
key is present (even if that value is NaN), otherwise the default. -/
def rowGet (row : Row) (k : String) (d : Value) : Value :=
  match row.find? (fun p => p.1 == k) with
  | some p => p.2
  | none => d

/-- `row.get(key)` with no default: Python returns `None` for an absent key. -/
def rowGet0 (row : Row) (k : String) : Value :=
  rowGet row k .vNone

/-- `pd.notna`: false exactly on the missing markers NaN and `None`. -/
def pdNotna : Value → Bool
  | .vNaN => false
  | .vNone => false
  | _ => true

/-- Python `str()` of a numeric value.  The script only applies `str` to
values that are strings in practice; for numbers we render the integer part
with a trailing `.0` for integral values (as Python does for floats) and
fall back to the rational's own rendering otherwise.  No claim depends on
this rendering. -/
def pyNumStr (q : ℚ) : String :=
  if q.den = 1 then toString q.num ++ ".0" else toString q

/-- Python `str()` coercion.  Crucially `str(nan) = "nan"` and
`str(None) = "None"`. -/
def pyStr : Value → String
  | .vNaN => "nan"
  | .vNone => "None"
  | .vStr s => s
  | .vNum q => pyNumStr q
  | .vBool b => cond b "True" "False"

/-- Python `bool()` truthiness.  NaN is a nonzero float, hence truthy;
`None` is falsy; a string is truthy iff nonempty; a number is truthy iff
nonzero. -/
def pyBool : Value → Bool
  | .vNaN => true
  | .vNone => false
  | .vStr s => !(s == "")
  | .vNum q => !(q == 0)
  | .vBool b => b

/-- Python `float()` coercion as used by the script.  Numbers pass through,
booleans become 0/1, everything else raises.  (Numeric-string parsing,
which Python's `float` would accept, is not modelled: in the script `float`
is only reached under a `pd.notna` guard on salary columns, which hold
numbers or missing markers; a raise here feeds the top-level exception
handler exactly as a Python raise would.) -/
def pyFloat : Value → Except String ℚ
  | .vNum q => .ok q
  | .vBool b => .ok (cond b 1 0)
  | v => .error ("could not convert to float: " ++ pyStr v)

/-- Python string slicing `s[:n]`: the first `n` characters (code points). -/
def pySlice (s : String) (n : Nat) : String :=
  ⟨s.data.take n⟩

/-- The optional `compensation` sub-record built by the script. -/
structure Compensation where
  min_amount : Option ℚ
  max_amount : Option ℚ
  interval : String
  currency : String
deriving DecidableEq, Repr

/-- One normalized job listing, mirroring the `job_data` dict in `main`.
`Option` fields are the nullable ones (`None` in Python → `null` in JSON). -/
structure JobData where
  title : String
  company : String
  company_url : Option String
  job_url : String
  location : String
  city : Option String
  state : Option String
  country : Option String
  is_remote : Bool
  job_type : Option String
  date_posted : String
  description : String
  site : String
  job_level : Option String
  company_industry : Option String
  salary_source : Option String
  compensation : Option Compensation
deriving DecidableEq, Repr

/-- The idiom `str(row.get(k, '')) if pd.notna(row.get(k)) else None`,
used for each nullable string field. -/
def strField (row : Row) (k : String) : Option String :=
  if pdNotna (rowGet0 row k) then some (pyStr (rowGet row k (.vStr ""))) else none

/-- The guarded numeric coercion
`float(row.get(k)) if pd.notna(row.get(k)) else None`.  The `float` call can
raise, so the result lives in `Except`. -/
def numField (row : Row) (k : String) : Except String (Option ℚ) :=
  if pdNotna (rowGet0 row k) then Except.map some (pyFloat (rowGet0 row k))
  else .ok none

/-- The guarded default-string idiom
`str(row.get(k, d)) if pd.notna(row.get(k)) else d` used for
`interval`/`currency` inside the compensation record. -/
def strFieldDefault (row : Row) (k : String) (d : String) : String :=
  if pdNotna (rowGet0 row k) then pyStr (rowGet row k (.vStr d)) else d

/-- The `if pd.notna(row.get('min_amount')) or pd.notna(row.get('max_amount'))`
block of `main`: the optional compensation dict.  The `float` calls can
raise, so the result lives in `Except`. -/
def compField (row : Row) : Except String (Option Compensation) :=
  if pdNotna (rowGet0 row "min_amount") || pdNotna (rowGet0 row "max_amount") then do
    let mn ← numField row "min_amount"
    let mx ← numField row "max_amount"
    pure (some
      { min_amount := mn
        max_amount := mx
        interval := strFieldDefault row "interval" "yearly"
        currency := strFieldDefault row "currency" "USD" })
  else
    pure none

/-- Normalization of a single row into a `JobData`, mirroring the body of
the `for _, row in jobs_df.iterrows()` loop.  `now` stands for
`datetime.now().isoformat()`.  An exception inside the loop (only the
`float` coercions can raise) is an `Except.error`. -/
def transformRow (now : String) (row : Row) : Except String JobData := do
  let comp : Option Compensation ← compField row
  pure
    { title := pyStr (rowGet row "title" (.vStr ""))
      company := pyStr (rowGet row "company" (.vStr ""))
      company_url := strField row "company_url"
      job_url := pyStr (rowGet row "job_url" (.vStr ""))
      location := pyStr (rowGet row "location" (.vStr ""))
      city := strField row "city"
      state := strField row "state"
      country := strField row "country"
      is_remote := pyBool (rowGet row "is_remote" (.vBool false))
      job_type := strField row "job_type"
      date_posted := pyStr (rowGet row "date_posted" (.vStr now))
      description := pySlice (pyStr (rowGet row "description" (.vStr ""))) 5000
      site := pyStr (rowGet row "site" (.vStr "unknown"))
      job_level := strField row "job_level"
      company_industry := strField row "company_industry"
      salary_source := strField row "salary_source"
      compensation := comp }

/-- A JSON value, as handed to `json.dump`. -/
inductive Json where
  | null
  | bool (b : Bool)
  | num (q : ℚ)
  | str (s : String)
  | arr (xs : List Json)
  | obj (kvs : List (String × Json))

/-- The keys of a JSON object (empty for non-objects). -/
def Json.objKeys : Json → List String
  | .obj kvs => kvs.map Prod.fst
  | _ => []

/-- An optional string as JSON: Python `None` serializes to `null`. -/
def optStrJson : Option String → Json
  | none => .null
  | some s => .str s

/-- An optional number as JSON. -/
def optNumJson : Option ℚ → Json
  | none => .null
  | some q => .num q

/-- The compensation dict as a JSON object, in the script's key order. -/
def compJson (c : Compensation) : Json :=
  .obj
    [("min_amount", optNumJson c.min_amount),
     ("max_amount", optNumJson c.max_amount),
     ("interval", .str c.interval),
     ("currency", .str c.currency)]

/-- A `JobData` as the JSON object `json.dump` receives: the dict-literal
keys in insertion order, with `compensation` (assigned after the literal)
last and only present when the sub-record exists. -/
def jobJson (jd : JobData) : Json :=
  .obj
    ([("title", .str jd.title),
      ("company", .str jd.company),
      ("company_url", optStrJson jd.company_url),
      ("job_url", .str jd.job_url),
      ("location", .str jd.location),
      ("city", optStrJson jd.city),
      ("state", optStrJson jd.state),
      ("country", optStrJson jd.country),
      ("is_remote", .bool jd.is_remote),
      ("job_type", optStrJson jd.job_type),
      ("date_posted", .str jd.date_posted),
      ("description", .str jd.description),
      ("site", .str jd.site),
      ("job_level", optStrJson jd.job_level),
      ("company_industry", optStrJson jd.company_industry),
      ("salary_source", optStrJson jd.salary_source)]
     ++ (match jd.compensation with
         | some c => [("compensation", compJson c)]
         | none => []))

/-- Hex digit. -/
def hexDigit (n : Nat) : Char :=
  if n < 10 then Char.ofNat (48 + n) else Char.ofNat (87 + n)

/-- JSON escaping of one character, as `json.dump(..., ensure_ascii=False)`
does it: quote, backslash and the common control characters get two-character
escapes, other control characters get `\u00XX`, everything else (including
non-ASCII) is emitted literally. -/
def jsonEscapeChar (c : Char) : String :=
  if c = '"' then "\\\""
  else if c = '\\' then "\\\\"
  else if c = '\n' then "\\n"
  else if c = '\r' then "\\r"
  else if c = '\t' then "\\t"
  else if c.toNat < 32 then
    "\\u00" ++ String.singleton (hexDigit (c.toNat / 16))
            ++ String.singleton (hexDigit (c.toNat % 16))
  else String.singleton c

/-- A JSON string literal. -/
def jsonQuote (s : String) : String :=
  "\"" ++ String.join (s.data.map jsonEscapeChar) ++ "\""

/-- Rendering of a number.  All numbers the script emits went through
`float()`, so integral values render with a trailing `.0` as Python floats
do; non-integral rationals use the rational's own rendering (an
approximation of Python's shortest-roundtrip float repr that no claim
depends on). -/
def jsonNum (q : ℚ) : String :=
  if q.den = 1 then toString q.num ++ ".0" else toString q

/-- Indentation prefix used by `json.dump(..., indent=ind)` at nesting
depth `level`. -/
def jsonIndent (ind : Option Nat) (level : Nat) : String :=
  match ind with
  | none => ""
  | some n => "\n" ++ String.join (List.replicate (n * level) " ")

/-- Separator after a comma: a space in compact mode (Python's default
`', '` item separator), nothing in indent mode (the newline+indent follows
instead). -/
def jsonComma (ind : Option Nat) : String :=
  match ind with
  | none => ", "
  | some _ => ","

mutual

/-- Serialization mirroring `json.dump`: compact with `', '`/`': '`
separators when `ind = none`, pretty-printed when `ind = some n`
(newline-separated items indented by `n` spaces per level). -/
def renderJson (ind : Option Nat) (level : Nat) : Json → String
  | .null => "null"
  | .bool b => cond b "true" "false"
  | .num q => jsonNum q
  | .str s => jsonQuote s
  | .arr [] => "[]"
  | .arr (x :: xs) =>
      "[" ++ jsonIndent ind (level + 1) ++ renderItems ind (level + 1) x xs
          ++ jsonIndent ind level ++ "]"
  | .obj [] => "\x7b\x7d"
  | .obj (kv :: kvs) =>
      "\x7b" ++ jsonIndent ind (level + 1) ++ renderMembers ind (level + 1) kv kvs
             ++ jsonIndent ind level ++ "\x7d"
termination_by j => sizeOf j

/-- Comma-separated array items. -/
def renderItems (ind : Option Nat) (level : Nat) : Json → List Json → String
  | x, [] => renderJson ind level x
  | x, y :: ys =>
      renderJson ind level x ++ jsonComma ind ++ jsonIndent ind level
        ++ renderItems ind level y ys
termination_by x xs => sizeOf x + sizeOf xs

/-- Comma-separated object members, with Python's `': '` key separator. -/
def renderMembers (ind : Option Nat) (level : Nat) :
    String × Json → List (String × Json) → String
  | (k, v), [] => jsonQuote k ++ ": " ++ renderJson ind level v
  | (k, v), kv2 :: kvs =>
      jsonQuote k ++ ": " ++ renderJson ind level v
        ++ jsonComma ind ++ jsonIndent ind level
        ++ renderMembers ind level kv2 kvs
termination_by kv kvs => sizeOf kv + sizeOf kvs

end

/-- `json.dump(value, f, ...)`: the full text written to the file. -/
def pyJsonDump (j : Json) (ind : Option Nat) : String :=
  renderJson ind 0 j

/-- The parsed CLI configuration (`args` after `parser.parse_args()`).
`jobType` and `expLevel` are the optional `--job-type` and
`--experience-level` flags; `maxJobs` defaults to 50 at parse time. -/
structure Args where
  query : String
  location : String
  sites : String
  maxJobs : Nat
  jobType : Option String
  expLevel : Option String
  output : String
deriving DecidableEq, Repr

/-- The keyword arguments of the `scrape_jobs(...)` call. -/
structure ScrapeParams where
  site_name : List String
  search_term : String
  location : String
  results_wanted : Nat
  hours_old : Nat
  country_indeed : String
deriving DecidableEq, Repr

/-- The parameters the script passes to `scrape_jobs`: the comma-split,
whitespace-stripped site list, the query, the location, the job cap, a
fixed one-week recency window and a fixed default country. -/
def scrapeParams (args : Args) : ScrapeParams :=
  { site_name := (args.sites.splitOn ",").map String.trim
    search_term := args.query
    location := args.location
    results_wanted := args.maxJobs
    hours_old := 168
    country_indeed := "USA" }

/-- What the `scrape_jobs` call did: raised an exception, or returned
either `None` or a data frame (a list of rows in iteration order). -/
inductive ScrapeOutcome where
  | raised (msg : String)
  | returned (df : Option (List Row))

/-- The observable result of one invocation: the JSON value handed to
`json.dump`, the exact text written to the output file, and the process
exit status. -/
structure MainResult where
  json : Json
  content : String
  exit : Nat

/-- The body of `main` after argument parsing, as a function of the scrape
outcome.  Mirrors the `try`/`except` block: a successful non-empty frame is
normalized row by row and dumped with `indent=2`; a `None` or empty frame
yields a compact `[]` with exit 0; any exception (from the scrape itself or
from the row transformation) yields a compact `[]` with exit 1. -/
def runScrapePhase (now : String) (oc : ScrapeOutcome) : MainResult :=
  match oc with
  | .raised _ =>
      { json := .arr [], content := pyJsonDump (.arr []) none, exit := 1 }
  | .returned none =>
      { json := .arr [], content := pyJsonDump (.arr []) none, exit := 0 }
  | .returned (some []) =>
      { json := .arr [], content := pyJsonDump (.arr []) none, exit := 0 }
  | .returned (some rows) =>
      match rows.mapM (transformRow now) with
      | .error _ =>
          { json := .arr [], content := pyJsonDump (.arr []) none, exit := 1 }
      | .ok jobs =>
          { json := .arr (jobs.map jobJson)
            content := pyJsonDump (.arr (jobs.map jobJson)) (some 2)
            exit := 0 }

/-- One whole invocation: the scrape collaborator (an arbitrary function
from the passed parameters to an outcome) is called on exactly the
parameters `scrapeParams args`, and the rest of `main` runs on its
outcome. -/
def programRun (args : Args) (scrape : ScrapeParams → ScrapeOutcome)
    (now : String) : MainResult :=
  runScrapePhase now (scrape (scrapeParams args))

/-- A cell value that can sit in a salary column without raising: a number,
or a missing marker. -/
def salaryCell (v : Value) : Prop :=
  (∃ q, v = .vNum q) ∨ pdNotna v = false

/-- The float-or-null coercion the script applies to a salary cell that is
a number or missing: `float(v)` under the `pd.notna` guard, `None`
otherwise. -/
def salaryOpt : Value → Option ℚ
  | .vNum q => some q
  | _ => none

/-! ### Concrete sample inputs used to instantiate the theorems -/

def sampleNow : String := "2024-01-01T00:00:00"

/-- The spec's scenario row:
`{title: "Engineer", company: "Acme", min_amount: 80000, max_amount: 120000}`. -/
def rowEngineer : Row :=
  [("title", .vStr "Engineer"), ("company", .vStr "Acme"),
   ("min_amount", .vNum 80000), ("max_amount", .vNum 120000)]

/-- The listing the script produces for `rowEngineer`. -/
def jdEngineer : JobData :=
  { title := "Engineer", company := "Acme", company_url := none, job_url := ""
    location := "", city := none, state := none, country := none
    is_remote := false, job_type := none, date_posted := sampleNow
    description := "", site := "unknown", job_level := none
    company_industry := none, salary_source := none
    compensation := some
      { min_amount := some 80000, max_amount := some 120000
        interval := "yearly", currency := "USD" } }

/-- The listing the script produces for an entirely empty row. -/
def jdEmptyRow : JobData :=
  { title := "", company := "", company_url := none, job_url := ""
    location := "", city := none, state := none, country := none
    is_remote := false, job_type := none, date_posted := sampleNow
    description := "", site := "unknown", job_level := none
    company_industry := none, salary_source := none, compensation := none }

/-- A row whose `title` column is present but holds the NaN missing marker. -/
def rowTitleNaN : Row := [("title", Value.vNaN)]

/-- The listing the script produces for `rowTitleNaN`: the title is the
literal string "nan". -/
def jdTitleNaN : JobData := { jdEmptyRow with title := "nan" }

/-- A row with a short plain-string description. -/
def rowDesc : Row := [("description", Value.vStr "hello world")]

/-- The listing the script produces for `rowDesc`. -/
def jdDesc : JobData := { jdEmptyRow with description := "hello world" }

/-- Two configurations that differ only in `--experience-level`. -/
def argsA : Args :=
  { query := "software engineer", location := "New York", sites := "indeed, linkedin"
    maxJobs := 50, jobType := none, expLevel := none, output := "out.json" }

def argsB : Args := { argsA with expLevel := some "senior" }

/-- Two configurations that differ only in `--job-type`. -/
def argsC : Args := { argsA with jobType := none }

def argsD : Args := { argsA with jobType := some "fulltime" }

/-! ## Helper lemmas -/

theorem exceptBind_ok {α β : Type} {x : Except String α} {f : α → Except String β}
    {b : β} (h : (x >>= f) = .ok b) : ∃ a, x = .ok a ∧ f a = .ok b := by
  cases x with
  | error e => simp [Bind.bind, Except.bind] at h
  | ok a => exact ⟨a, rfl, by simpa [Bind.bind, Except.bind] using h⟩

/-- A successful `mapM` over `Except` yields a list of the same length whose
`i`-th element is the successful image of the `i`-th input. -/
theorem mapM_ok_spec {α β : Type} (f : α → Except String β) :
    ∀ (xs : List α) (ys : List β), xs.mapM f = .ok ys →
      ys.length = xs.length ∧
      ∀ i (hx : i < xs.length) (hy : i < ys.length),
        f (xs.get ⟨i, hx⟩) = .ok (ys.get ⟨i, hy⟩) := by
  intro xs
  induction xs with
  | nil =>
    intro ys h
    rw [List.mapM_nil] at h
    cases h
    exact ⟨rfl, fun i hx hy => absurd hx (Nat.not_lt_zero i)⟩
  | cons x xs ih =>
    intro ys h
    rw [List.mapM_cons] at h
    obtain ⟨y, hy, h2⟩ := exceptBind_ok h
    obtain ⟨tail, htail, h3⟩ := exceptBind_ok h2
    have hys : ys = y :: tail := by
      cases h3
      rfl
    subst hys
    obtain ⟨hlen, hidx⟩ := ih tail htail
    refine ⟨by simp [hlen], ?_⟩
    intro i hx hyy
    cases i with
    | zero => simpa using hy
    | succ n =>
      have hx2 : n < xs.length := Nat.lt_of_succ_lt_succ hx
      have hy2 : n < tail.length := Nat.lt_of_succ_lt_succ hyy
      simpa using hidx n hx2 hy2

/-- A successful row transformation fixes every field of the record: the
result is the dict literal of `main` with the compensation computed by
`compField`. -/
theorem transformRow_ok {now : String} {row : Row} {jd : JobData}
    (h : transformRow now row = .ok jd) :
    ∃ comp, compField row = .ok comp ∧
      jd = { title := pyStr (rowGet row "title" (.vStr ""))
             company := pyStr (rowGet row "company" (.vStr ""))
             company_url := strField row "company_url"
             job_url := pyStr (rowGet row "job_url" (.vStr ""))
             location := pyStr (rowGet row "location" (.vStr ""))
             city := strField row "city"
             state := strField row "state"
             country := strField row "country"
             is_remote := pyBool (rowGet row "is_remote" (.vBool false))
             job_type := strField row "job_type"
             date_posted := pyStr (rowGet row "date_posted" (.vStr now))
             description := pySlice (pyStr (rowGet row "description" (.vStr ""))) 5000
             site := pyStr (rowGet row "site" (.vStr "unknown"))
             job_level := strField row "job_level"
             company_industry := strField row "company_industry"
             salary_source := strField row "salary_source"
             compensation := comp } := by
  unfold transformRow at h
  obtain ⟨comp, hc, h2⟩ := exceptBind_ok h
  refine ⟨comp, hc, ?_⟩
  cases h2
  rfl

/-- A successful `compField` yields `some` exactly when at least one salary
bound is non-missing. -/
theorem compField_ok_isSome {row : Row} {comp : Option Compensation}
    (h : compField row = .ok comp) :
    comp.isSome
      = (pdNotna (rowGet0 row "min_amount") || pdNotna (rowGet0 row "max_amount")) := by
  unfold compField at h
  cases hcond : (pdNotna (rowGet0 row "min_amount") || pdNotna (rowGet0 row "max_amount")) with
  | false =>
    rw [hcond] at h
    simp only [if_neg Bool.false_ne_true] at h
    cases h
    rfl
  | true =>
    rw [hcond] at h
    simp only [if_pos rfl] at h
    obtain ⟨mn, hmn, h2⟩ := exceptBind_ok h
    obtain ⟨mx, hmx, h3⟩ := exceptBind_ok h2
    cases h3
    rfl

theorem strField_missing {row : Row} {k : String}
    (h : pdNotna (rowGet0 row k) = false) : strField row k = none := by
  unfold strField
  rw [h]
  rfl

theorem strFieldDefault_missing {row : Row} {k : String} {d : String}
    (h : pdNotna (rowGet0 row k) = false) : strFieldDefault row k d = d := by
  unfold strFieldDefault
  rw [h]
  rfl

theorem numField_num {row : Row} {k : String} {q : ℚ}
    (h : rowGet0 row k = .vNum q) : numField row k = .ok (some q) := by
  unfold numField
  rw [h]
  rfl

theorem numField_missing {row : Row} {k : String}
    (h : pdNotna (rowGet0 row k) = false) : numField row k = .ok none := by
  unfold numField
  rw [h]
  rfl

/-- `json.dump([], f)` writes exactly the two characters `[]`. -/
theorem pyJsonDump_empty : pyJsonDump (.arr []) none = "[]" := by
  simp [pyJsonDump, renderJson]

/-! ## Claims -/

/-- C1: for every invocation in which any exception is raised during the
scrape or during the row transformation, the program writes a JSON empty
array to the configured output path and exits with status 1. -/
theorem claim1_exception_writes_empty_and_exit1 (now : String) (oc : ScrapeOutcome)
    (h : (∃ msg, oc = .raised msg) ∨
         ∃ rows e, oc = .returned (some rows) ∧
           rows.mapM (transformRow now) = .error e) :
    (runScrapePhase now oc).content = "[]" ∧ (runScrapePhase now oc).exit = 1 := by
  rcases h with ⟨msg, rfl⟩ | ⟨rows, e, rfl, herr⟩
  · exact ⟨pyJsonDump_empty, rfl⟩
  · cases rows with
    | nil => rw [List.mapM_nil] at herr; cases herr
    | cons r rs =>
      constructor
      · show (runScrapePhase now (.returned (some (r :: rs)))).content = "[]"
        simp only [runScrapePhase, herr]
        exact pyJsonDump_empty
      · simp only [runScrapePhase, herr]

/-- C2: a transformed row's JSON object contains a `compensation` key if
and only if at least one of `min_amount`/`max_amount` is non-missing in the
source row; when both are missing there is no `compensation` key at all. -/
theorem claim2_compensation_key_iff (now : String) (row : Row) (jd : JobData)
    (h : transformRow now row = .ok jd) :
    "compensation" ∈ (jobJson jd).objKeys ↔
      (pdNotna (rowGet0 row "min_amount") = true ∨
       pdNotna (rowGet0 row "max_amount") = true) := by
  obtain ⟨comp, hc, rfl⟩ := transformRow_ok h
  have hs := compField_ok_isSome hc
  cases comp with
  | none =>
    simp only [Option.isSome_none] at hs
    constructor
    · intro hmem
      exact absurd hmem (by simp [jobJson, Json.objKeys])
    · intro hor
      exfalso
      rcases hor with h1 | h1 <;> rw [h1] at hs <;> simp at hs
  | some c =>
    simp only [Option.isSome_some] at hs
    constructor
    · intro _
      rcases Bool.or_eq_true_iff.mp hs.symm with h1 | h1
      · exact Or.inl h1
      · exact Or.inr h1
    · intro _
      simp [jobJson, Json.objKeys]

/-- C3 counterexample: a row whose `title` column holds the NaN missing
marker produces a listing whose `title` is the literal string "nan", not
null — `str(row.get('title', ''))` has no `pd.notna` guard. -/
theorem claim3_counterexample :
    Except.map JobData.title (transformRow sampleNow rowTitleNaN)
      = .ok "nan" := rfl

/-- C3 amended: the guarded nullable string fields (company_url, city,
state, country, job_type, job_level, company_industry, salary_source)
become null when the underlying value is missing, but the unguarded string
fields (title, company, job_url, location, date_posted, site, description)
coerce a present NaN value to the literal string "nan". -/
theorem claim3_amended (now : String) (row : Row) (jd : JobData)
    (h : transformRow now row = .ok jd) :
    (pdNotna (rowGet0 row "company_url") = false → jd.company_url = none) ∧
    (pdNotna (rowGet0 row "city") = false → jd.city = none) ∧
    (pdNotna (rowGet0 row "state") = false → jd.state = none) ∧
    (pdNotna (rowGet0 row "country") = false → jd.country = none) ∧
    (pdNotna (rowGet0 row "job_type") = false → jd.job_type = none) ∧
    (pdNotna (rowGet0 row "job_level") = false → jd.job_level = none) ∧
    (pdNotna (rowGet0 row "company_industry") = false → jd.company_industry = none) ∧
    (pdNotna (rowGet0 row "salary_source") = false → jd.salary_source = none) ∧
    (rowGet row "title" (.vStr "") = .vNaN → jd.title = "nan") ∧
    (rowGet row "company" (.vStr "") = .vNaN → jd.company = "nan") ∧
    (rowGet row "job_url" (.vStr "") = .vNaN → jd.job_url = "nan") ∧
    (rowGet row "location" (.vStr "") = .vNaN → jd.location = "nan") ∧
    (rowGet row "date_posted" (.vStr now) = .vNaN → jd.date_posted = "nan") ∧
    (rowGet row "site" (.vStr "unknown") = .vNaN → jd.site = "nan") ∧
    (rowGet row "description" (.vStr "") = .vNaN → jd.description = "nan") := by
  obtain ⟨comp, hc, rfl⟩ := transformRow_ok h
  refine ⟨fun h1 => strField_missing h1, fun h1 => strField_missing h1,
    fun h1 => strField_missing h1, fun h1 => strField_missing h1,
    fun h1 => strField_missing h1, fun h1 => strField_missing h1,
    fun h1 => strField_missing h1, fun h1 => strField_missing h1,
    ?_, ?_, ?_, ?_, ?_, ?_, ?_⟩ <;>
    · intro h1
      show _ = _
      rw [h1]
      rfl

/-- C4: whenever the scrape result is `None` or has zero rows, the output
file contains exactly the JSON text `[]` and the process exits with
status 0. -/
theorem claim4_no_rows_empty_array_exit0 (now : String) (oc : ScrapeOutcome)
    (h : oc = .returned none ∨ oc = .returned (some [])) :
    (runScrapePhase now oc).content = "[]" ∧ (runScrapePhase now oc).exit = 0 := by
  rcases h with rfl | rfl
  · exact ⟨pyJsonDump_empty, rfl⟩
  · exact ⟨pyJsonDump_empty, rfl⟩

/-- C5: for a non-empty scrape result whose rows all transform without an
exception, the value written to the output file is a JSON array whose
length equals the number of input rows, the file content is its
serialization, and the i-th listing is the transform of the i-th row
(input order preserved). -/
theorem claim5_nonempty_output (now : String) (rows : List Row) (jobs : List JobData)
    (hne : rows ≠ [])
    (hok : rows.mapM (transformRow now) = .ok jobs) :
    (runScrapePhase now (.returned (some rows))).json = .arr (jobs.map jobJson) ∧
    (runScrapePhase now (.returned (some rows))).content
      = pyJsonDump (.arr (jobs.map jobJson)) (some 2) ∧
    (jobs.map jobJson).length = rows.length ∧
    ∀ i (hx : i < rows.length) (hj : i < jobs.length),
      transformRow now (rows.get ⟨i, hx⟩) = .ok (jobs.get ⟨i, hj⟩) := by
  obtain ⟨hlen, hidx⟩ := mapM_ok_spec (transformRow now) rows jobs hok
  cases rows with
  | nil => exact absurd rfl hne
  | cons r rs =>
    refine ⟨?_, ?_, by simp [hlen], hidx⟩
    · simp only [runScrapePhase, hok]
    · simp only [runScrapePhase, hok]

/-- C6: for every row with at least one salary bound present (and salary
cells that are numbers or missing, as the tabular source provides), the
emitted compensation record coerces `min_amount`/`max_amount` to float with
a missing one becoming null, and — each independently — its `interval`
field equals "yearly" when the interval column is absent or missing and its
`currency` field equals "USD" when the currency column is absent or
missing. -/
theorem claim6_compensation_record (now : String) (row : Row)
    (hmin : salaryCell (rowGet0 row "min_amount"))
    (hmax : salaryCell (rowGet0 row "max_amount"))
    (hpres : (pdNotna (rowGet0 row "min_amount") ||
              pdNotna (rowGet0 row "max_amount")) = true) :
    ∃ jd c, transformRow now row = .ok jd ∧
      jd.compensation = some c ∧
      c.min_amount = salaryOpt (rowGet0 row "min_amount") ∧
      c.max_amount = salaryOpt (rowGet0 row "max_amount") ∧
      (pdNotna (rowGet0 row "interval") = false → c.interval = "yearly") ∧
      (pdNotna (rowGet0 row "currency") = false → c.currency = "USD") := by
  have hnum : ∀ k : String, salaryCell (rowGet0 row k) →
      numField row k = .ok (salaryOpt (rowGet0 row k)) := by
    intro k hk
    rcases hk with ⟨q, hq⟩ | hmiss
    · rw [numField_num hq, hq]
      rfl
    · rw [numField_missing hmiss]
      cases hv : rowGet0 row k with
      | vNaN => rfl
      | vNone => rfl
      | vStr s => rw [hv] at hmiss; cases hmiss
      | vNum q => rw [hv] at hmiss; cases hmiss
      | vBool b => rw [hv] at hmiss; cases hmiss
  have hcomp : compField row = .ok (some
      { min_amount := salaryOpt (rowGet0 row "min_amount")
        max_amount := salaryOpt (rowGet0 row "max_amount")
        interval := strFieldDefault row "interval" "yearly"
        currency := strFieldDefault row "currency" "USD" }) := by
    unfold compField
    rw [hpres]
    simp only [if_pos]
    rw [hnum "min_amount" hmin, hnum "max_amount" hmax]
    simp [Bind.bind, Except.bind, pure, Except.pure]
  refine ⟨{ title := pyStr (rowGet row "title" (.vStr ""))
            company := pyStr (rowGet row "company" (.vStr ""))
            company_url := strField row "company_url"
            job_url := pyStr (rowGet row "job_url" (.vStr ""))
            location := pyStr (rowGet row "location" (.vStr ""))
            city := strField row "city"
            state := strField row "state"
            country := strField row "country"
            is_remote := pyBool (rowGet row "is_remote" (.vBool false))
            job_type := strField row "job_type"
            date_posted := pyStr (rowGet row "date_posted" (.vStr now))
            description := pySlice (pyStr (rowGet row "description" (.vStr ""))) 5000
            site := pyStr (rowGet row "site" (.vStr "unknown"))
            job_level := strField row "job_level"
            company_industry := strField row "company_industry"
            salary_source := strField row "salary_source"
            compensation := some
              { min_amount := salaryOpt (rowGet0 row "min_amount")
                max_amount := salaryOpt (rowGet0 row "max_amount")
                interval := strFieldDefault row "interval" "yearly"
                currency := strFieldDefault row "currency" "USD" } },
          { min_amount := salaryOpt (rowGet0 row "min_amount")
            max_amount := salaryOpt (rowGet0 row "max_amount")
            interval := strFieldDefault row "interval" "yearly"
            currency := strFieldDefault row "currency" "USD" },
          ?_, rfl, rfl, rfl,
          fun h1 => strFieldDefault_missing h1,
          fun h1 => strFieldDefault_missing h1⟩
  unfold transformRow
  rw [hcomp]
  rfl

/-- C7: the description of every transformed row has length at most 5000
characters, and when the source description is a string it equals its
first 5000 characters verbatim. -/
theorem claim7_description_truncation (now : String) (row : Row) (jd : JobData)
    (h : transformRow now row = .ok jd) :
    jd.description.length ≤ 5000 ∧
      ∀ s, rowGet row "description" (.vStr "") = .vStr s →
        jd.description = pySlice s 5000 := by
  obtain ⟨comp, hc, rfl⟩ := transformRow_ok h
  constructor
  · show (pySlice (pyStr (rowGet row "description" (.vStr ""))) 5000).length ≤ 5000
    unfold pySlice
    show (List.take 5000 _).length ≤ 5000
    rw [List.length_take]
    exact min_le_left _ _
  · intro s hs
    show pySlice (pyStr (rowGet row "description" (.vStr ""))) 5000 = pySlice s 5000
    rw [hs]
    rfl

/-- C8 counterexample: a row whose `is_remote` column holds the NaN missing
marker yields `is_remote = true`, because `bool(nan)` is true in Python —
the claim says a missing value yields false. -/
theorem claim8_counterexample :
    Except.map JobData.is_remote
      (transformRow sampleNow [("is_remote", Value.vNaN)]) = .ok true := rfl

/-- C8 amended: `is_remote` is the Python truthiness coercion of
`row.get('is_remote', False)`; it is false when the column is absent from
the row, but a present NaN value coerces to true. -/
theorem claim8_amended (now : String) (row : Row) (jd : JobData)
    (h : transformRow now row = .ok jd) :
    jd.is_remote = pyBool (rowGet row "is_remote" (.vBool false)) ∧
      (List.find? (fun p => p.1 == "is_remote") row = none →
        jd.is_remote = false) := by
  obtain ⟨comp, hc, rfl⟩ := transformRow_ok h
  refine ⟨rfl, fun habs => ?_⟩
  show pyBool (rowGet row "is_remote" (.vBool false)) = false
  unfold rowGet
  rw [habs]
  rfl

/-- C9: two invocations that differ only in the `--experience-level` flag
pass identical parameters to the external scrape call — the flag is parsed
but never forwarded. -/
theorem claim9_experience_level_not_forwarded (a b : Args)
    (hq : a.query = b.query) (hl : a.location = b.location)
    (hs : a.sites = b.sites) (hm : a.maxJobs = b.maxJobs)
    (hj : a.jobType = b.jobType) (ho : a.output = b.output) :
    scrapeParams a = scrapeParams b := by
  simp [scrapeParams, hq, hl, hs, hm]

/-- C10: two invocations that differ only in the `--job-type` flag pass
identical parameters to the external scrape call, and for the same scrape
outcome produce identical output file content and exit status — the flag
is accepted but has no effect. -/
theorem claim10_job_type_no_effect (a b : Args)
    (hq : a.query = b.query) (hl : a.location = b.location)
    (hs : a.sites = b.sites) (hm : a.maxJobs = b.maxJobs)
    (he : a.expLevel = b.expLevel) (ho : a.output = b.output) :
    scrapeParams a = scrapeParams b ∧
      ∀ (scrape : ScrapeParams → ScrapeOutcome) (now : String),
        programRun a scrape now = programRun b scrape now := by
  have hp : scrapeParams a = scrapeParams b := by simp [scrapeParams, hq, hl, hs, hm]
  exact ⟨hp, fun scrape now => by simp [programRun, hp]⟩

/-! ## Witnesses -/

/-- Witness for C1 at a concrete raised exception. -/
theorem claim1_witness :
    ((∃ msg, ScrapeOutcome.raised "network down" = ScrapeOutcome.raised msg) ∨
      ∃ rows e, ScrapeOutcome.raised "network down" = ScrapeOutcome.returned (some rows) ∧
        rows.mapM (transformRow sampleNow) = .error e) ∧
    (runScrapePhase sampleNow (.raised "network down")).content = "[]" ∧
    (runScrapePhase sampleNow (.raised "network down")).exit = 1 :=
  ⟨Or.inl ⟨"network down", rfl⟩,
   claim1_exception_writes_empty_and_exit1 sampleNow (.raised "network down")
     (Or.inl ⟨"network down", rfl⟩)⟩

/-- Witness for C2 at the scenario row with both salary bounds present. -/
theorem claim2_witness :
    (transformRow sampleNow rowEngineer = .ok jdEngineer) ∧
    ("compensation" ∈ (jobJson jdEngineer).objKeys ↔
      (pdNotna (rowGet0 rowEngineer "min_amount") = true ∨
       pdNotna (rowGet0 rowEngineer "max_amount") = true)) :=
  ⟨rfl, claim2_compensation_key_iff sampleNow rowEngineer jdEngineer rfl⟩

/-- Witness for the amended C3 at a row with a NaN title. -/
theorem claim3_witness :
    (transformRow sampleNow rowTitleNaN = .ok jdTitleNaN) ∧
    ((pdNotna (rowGet0 rowTitleNaN "company_url") = false → jdTitleNaN.company_url = none) ∧
     (pdNotna (rowGet0 rowTitleNaN "city") = false → jdTitleNaN.city = none) ∧
     (pdNotna (rowGet0 rowTitleNaN "state") = false → jdTitleNaN.state = none) ∧
     (pdNotna (rowGet0 rowTitleNaN "country") = false → jdTitleNaN.country = none) ∧
     (pdNotna (rowGet0 rowTitleNaN "job_type") = false → jdTitleNaN.job_type = none) ∧
     (pdNotna (rowGet0 rowTitleNaN "job_level") = false → jdTitleNaN.job_level = none) ∧
     (pdNotna (rowGet0 rowTitleNaN "company_industry") = false → jdTitleNaN.company_industry = none) ∧
     (pdNotna (rowGet0 rowTitleNaN "salary_source") = false → jdTitleNaN.salary_source = none) ∧
     (rowGet rowTitleNaN "title" (.vStr "") = .vNaN → jdTitleNaN.title = "nan") ∧
     (rowGet rowTitleNaN "company" (.vStr "") = .vNaN → jdTitleNaN.company = "nan") ∧
     (rowGet rowTitleNaN "job_url" (.vStr "") = .vNaN → jdTitleNaN.job_url = "nan") ∧
     (rowGet rowTitleNaN "location" (.vStr "") = .vNaN → jdTitleNaN.location = "nan") ∧
     (rowGet rowTitleNaN "date_posted" (.vStr sampleNow) = .vNaN → jdTitleNaN.date_posted = "nan") ∧
     (rowGet rowTitleNaN "site" (.vStr "unknown") = .vNaN → jdTitleNaN.site = "nan") ∧
     (rowGet rowTitleNaN "description" (.vStr "") = .vNaN → jdTitleNaN.description = "nan")) :=
  ⟨rfl, claim3_amended sampleNow rowTitleNaN jdTitleNaN rfl⟩

/-- Witness for C4 at a `None` scrape result. -/
theorem claim4_witness :
    (ScrapeOutcome.returned (none : Option (List Row)) = .returned none ∨
      ScrapeOutcome.returned (none : Option (List Row)) = .returned (some [])) ∧
    (runScrapePhase sampleNow (.returned none)).content = "[]" ∧
    (runScrapePhase sampleNow (.returned none)).exit = 0 :=
  ⟨Or.inl rfl,
   claim4_no_rows_empty_array_exit0 sampleNow (.returned none) (Or.inl rfl)⟩

/-- Witness for C5 at the one-row frame containing the scenario row. -/
theorem claim5_witness :
    ([rowEngineer] ≠ ([] : List Row)) ∧
    ([rowEngineer].mapM (transformRow sampleNow) = .ok [jdEngineer]) ∧
    ((runScrapePhase sampleNow (.returned (some [rowEngineer]))).json
        = .arr ([jdEngineer].map jobJson) ∧
     (runScrapePhase sampleNow (.returned (some [rowEngineer]))).content
        = pyJsonDump (.arr ([jdEngineer].map jobJson)) (some 2) ∧
     ([jdEngineer].map jobJson).length = [rowEngineer].length ∧
     ∀ i (hx : i < [rowEngineer].length) (hj : i < [jdEngineer].length),
       transformRow sampleNow ([rowEngineer].get ⟨i, hx⟩)
         = .ok ([jdEngineer].get ⟨i, hj⟩)) :=
  ⟨List.cons_ne_nil _ _, rfl,
   claim5_nonempty_output sampleNow [rowEngineer] [jdEngineer]
     (List.cons_ne_nil _ _) rfl⟩

/-- Witness for C6 at the scenario row: both bounds present,
interval and currency columns absent. -/
theorem claim6_witness :
    salaryCell (rowGet0 rowEngineer "min_amount") ∧
    salaryCell (rowGet0 rowEngineer "max_amount") ∧
    (pdNotna (rowGet0 rowEngineer "min_amount") ||
      pdNotna (rowGet0 rowEngineer "max_amount")) = true ∧
    (∃ jd c, transformRow sampleNow rowEngineer = .ok jd ∧
      jd.compensation = some c ∧
      c.min_amount = salaryOpt (rowGet0 rowEngineer "min_amount") ∧
      c.max_amount = salaryOpt (rowGet0 rowEngineer "max_amount") ∧
      (pdNotna (rowGet0 rowEngineer "interval") = false → c.interval = "yearly") ∧
      (pdNotna (rowGet0 rowEngineer "currency") = false → c.currency = "USD")) :=
  ⟨Or.inl ⟨80000, rfl⟩, Or.inl ⟨120000, rfl⟩, rfl,
   claim6_compensation_record sampleNow rowEngineer
     (Or.inl ⟨80000, rfl⟩) (Or.inl ⟨120000, rfl⟩) rfl⟩

/-- Witness for C7 at a row with a short string description. -/
theorem claim7_witness :
    (transformRow sampleNow rowDesc = .ok jdDesc) ∧
    (jdDesc.description.length ≤ 5000 ∧
      ∀ s, rowGet rowDesc "description" (.vStr "") = .vStr s →
        jdDesc.description = pySlice s 5000) :=
  ⟨rfl, claim7_description_truncation sampleNow rowDesc jdDesc rfl⟩

/-- Witness for the amended C8 at the empty row (column absent). -/
theorem claim8_witness :
    (transformRow sampleNow ([] : Row) = .ok jdEmptyRow) ∧
    (jdEmptyRow.is_remote = pyBool (rowGet [] "is_remote" (.vBool false)) ∧
      (List.find? (fun p => p.1 == "is_remote") ([] : Row) = none →
        jdEmptyRow.is_remote = false)) :=
  ⟨rfl, claim8_amended sampleNow [] jdEmptyRow rfl⟩

/-- Witness for C9 at two concrete configurations that differ only in
the experience-level flag. -/
theorem claim9_witness :
    argsA.query = argsB.query ∧ argsA.location = argsB.location ∧
    argsA.sites = argsB.sites ∧ argsA.maxJobs = argsB.maxJobs ∧
    argsA.jobType = argsB.jobType ∧ argsA.output = argsB.output ∧
    argsA.expLevel ≠ argsB.expLevel ∧
    scrapeParams argsA = scrapeParams argsB :=
  ⟨rfl, rfl, rfl, rfl, rfl, rfl, by decide,
   claim9_experience_level_not_forwarded argsA argsB rfl rfl rfl rfl rfl rfl⟩

/-- Witness for C10 at two concrete configurations that differ only in
the job-type flag. -/
theorem claim10_witness :
    argsC.query = argsD.query ∧ argsC.location = argsD.location ∧
    argsC.sites = argsD.sites ∧ argsC.maxJobs = argsD.maxJobs ∧
    argsC.expLevel = argsD.expLevel ∧ argsC.output = argsD.output ∧
    argsC.jobType ≠ argsD.jobType ∧
    (scrapeParams argsC = scrapeParams argsD ∧
      ∀ (scrape : ScrapeParams → ScrapeOutcome) (now : String),
        programRun argsC scrape now = programRun argsD scrape now) :=
  ⟨rfl, rfl, rfl, rfl, rfl, rfl, by decide,
   claim10_job_type_no_effect argsC argsD rfl rfl rfl rfl rfl rfl⟩
